import Mathlib

/-!
Verification of the authentication manager (`src/app/assets/js/authmanager.js`)
of the HeliosLauncher repository.

The module under verification orchestrates account lifecycle operations
(add, remove, validate/refresh) against an external identity provider
(`MojangRestAPI`, from the helios-core dependency) and an account store
(`ConfigManager`).  The provider is an external collaborator, so its
responses appear here as explicit inputs to each operation.  The
`ConfigManager` store is code of the repository that is not part of the
sources being verified; its operations are modelled from the spec's
`AccountStore` interface and clearly marked as such.

JavaScript semantics relevant to the embedding:
  * an `async` function either resolves with a value or rejects with a
    value; we model this with `Except RejectValue α`;
  * a resolved value may be `undefined` (a function falling off its end):
    modelled with `Option`;
  * reading a property of `undefined` throws a `TypeError`;
  * a `throw` inside `try` transfers to `catch`; a `throw` with no
    enclosing `try` rejects the promise with the thrown value.
-/

namespace AuthManager

/-- The `MojangErrorCode` enumeration from helios-core, exactly the codes
the source's `switch` recognises. -/
inductive MojangErrorCode
  | ERROR_METHOD_NOT_ALLOWED
  | ERROR_NOT_FOUND
  | ERROR_USER_MIGRATED
  | ERROR_INVALID_CREDENTIALS
  | ERROR_RATELIMIT
  | ERROR_INVALID_TOKEN
  | ERROR_ACCESS_TOKEN_HAS_PROFILE
  | ERROR_CREDENTIALS_MISSING
  | ERROR_INVALID_SALT_VERSION
  | ERROR_UNSUPPORTED_MEDIA_TYPE
  | ERROR_GONE
  | ERROR_UNREACHABLE
  | ERROR_NOT_PAID
  | UNKNOWN
  deriving DecidableEq, Repr

/-- A JavaScript value reaching the `switch` of `mojangErrorDisplayable`:
either one of the recognised enumeration members, or any other value
(e.g. `undefined`, or a code added to the provider's taxonomy later),
carried as its string rendering. -/
inductive JSErrorCode
  | known (c : MojangErrorCode)
  | unrecognized (v : String)
  deriving DecidableEq, Repr

/-- A thrown JavaScript error value. -/
inductive JSError
  | error (msg : String)
  | typeError (msg : String)
  deriving DecidableEq, Repr

/-- The displayable error object built by `mojangErrorDisplayable`:
a title and a description, both localized strings. -/
structure AuthError where
  title : String
  desc : String
  deriving DecidableEq, Repr

/-- `mojangErrorDisplayable` (authmanager.js lines 21-96).  The localized
string lookup `Lang.queryJS` is an external collaborator passed in as
`lang`.  Every member of the enumeration returns a displayable object;
the `default` branch throws `new Error` mentioning the offending code. -/
def mojangErrorDisplayable (lang : String → String) : JSErrorCode → Except JSError AuthError
  | JSErrorCode.known MojangErrorCode.ERROR_METHOD_NOT_ALLOWED =>
      Except.ok ⟨lang "auth.mojang.error.methodNotAllowedTitle",
                 lang "auth.mojang.error.methodNotAllowedDesc"⟩
  | JSErrorCode.known MojangErrorCode.ERROR_NOT_FOUND =>
      Except.ok ⟨lang "auth.mojang.error.notFoundTitle",
                 lang "auth.mojang.error.notFoundDesc"⟩
  | JSErrorCode.known MojangErrorCode.ERROR_USER_MIGRATED =>
      Except.ok ⟨lang "auth.mojang.error.accountMigratedTitle",
                 lang "auth.mojang.error.accountMigratedDesc"⟩
  | JSErrorCode.known MojangErrorCode.ERROR_INVALID_CREDENTIALS =>
      Except.ok ⟨lang "auth.mojang.error.invalidCredentialsTitle",
                 lang "auth.mojang.error.invalidCredentialsDesc"⟩
  | JSErrorCode.known MojangErrorCode.ERROR_RATELIMIT =>
      Except.ok ⟨lang "auth.mojang.error.tooManyAttemptsTitle",
                 lang "auth.mojang.error.tooManyAttemptsDesc"⟩
  | JSErrorCode.known MojangErrorCode.ERROR_INVALID_TOKEN =>
      Except.ok ⟨lang "auth.mojang.error.invalidTokenTitle",
                 lang "auth.mojang.error.invalidTokenDesc"⟩
  | JSErrorCode.known MojangErrorCode.ERROR_ACCESS_TOKEN_HAS_PROFILE =>
      Except.ok ⟨lang "auth.mojang.error.tokenHasProfileTitle",
                 lang "auth.mojang.error.tokenHasProfileDesc"⟩
  | JSErrorCode.known MojangErrorCode.ERROR_CREDENTIALS_MISSING =>
      Except.ok ⟨lang "auth.mojang.error.credentialsMissingTitle",
                 lang "auth.mojang.error.credentialsMissingDesc"⟩
  | JSErrorCode.known MojangErrorCode.ERROR_INVALID_SALT_VERSION =>
      Except.ok ⟨lang "auth.mojang.error.invalidSaltVersionTitle",
                 lang "auth.mojang.error.invalidSaltVersionDesc"⟩
  | JSErrorCode.known MojangErrorCode.ERROR_UNSUPPORTED_MEDIA_TYPE =>
      Except.ok ⟨lang "auth.mojang.error.unsupportedMediaTypeTitle",
                 lang "auth.mojang.error.unsupportedMediaTypeDesc"⟩
  | JSErrorCode.known MojangErrorCode.ERROR_GONE =>
      Except.ok ⟨lang "auth.mojang.error.accountGoneTitle",
                 lang "auth.mojang.error.accountGoneDesc"⟩
  | JSErrorCode.known MojangErrorCode.ERROR_UNREACHABLE =>
      Except.ok ⟨lang "auth.mojang.error.unreachableTitle",
                 lang "auth.mojang.error.unreachableDesc"⟩
  | JSErrorCode.known MojangErrorCode.ERROR_NOT_PAID =>
      Except.ok ⟨lang "auth.mojang.error.gameNotPurchasedTitle",
                 lang "auth.mojang.error.gameNotPurchasedDesc"⟩
  | JSErrorCode.known MojangErrorCode.UNKNOWN =>
      Except.ok ⟨lang "auth.mojang.error.unknownErrorTitle",
                 lang "auth.mojang.error.unknownErrorDesc"⟩
  | JSErrorCode.unrecognized v =>
      Except.error (JSError.error ("Unknown error code: " ++ v))

/-- A stored auth account record, as persisted by the store on a
successful login (`addMojangAuthAccount(uuid, accessToken, username,
displayName)`). -/
structure AuthAccount where
  uuid : String
  accessToken : String
  username : String
  displayName : String
  deriving DecidableEq, Repr

/-- Association-list lookup, JavaScript `authenticationDatabase[uuid]`:
`none` plays the role of `undefined`. -/
def dbGet (uuid : String) : List (String × AuthAccount) → Option AuthAccount
  | [] => none
  | kv :: rest => if kv.1 = uuid then some kv.2 else dbGet uuid rest

/-- Deletion of a key, JavaScript `delete authenticationDatabase[uuid]`. -/
def dbRemove (uuid : String) : List (String × AuthAccount) → List (String × AuthAccount)
  | [] => []
  | kv :: rest => if kv.1 = uuid then dbRemove uuid rest else kv :: dbRemove uuid rest

/-- Keyed insertion/replacement, `authenticationDatabase[uuid] = acc`. -/
def dbPut (uuid : String) (acc : AuthAccount) (db : List (String × AuthAccount)) :
    List (String × AuthAccount) :=
  (uuid, acc) :: dbRemove uuid db

/-- In-place update of the access token of the record stored under a key,
`authenticationDatabase[uuid].accessToken = token`. -/
def dbUpdate (uuid token : String) : List (String × AuthAccount) → List (String × AuthAccount)
  | [] => []
  | kv :: rest =>
      if kv.1 = uuid then (kv.1, { kv.2 with accessToken := token }) :: rest
      else kv :: dbUpdate uuid token rest

/-- The ConfigManager-held persistent state as far as this module touches
it: the authentication database keyed by account uuid, the process-wide
client token (`none` = never set, i.e. `null`/`undefined`), the selected
account reference, and a counter of `ConfigManager.save()` commits. -/
structure ConfigState where
  authDB : List (String × AuthAccount)
  clientToken : Option String
  selectedUUID : Option String
  saves : Nat
  deriving DecidableEq, Repr

/-- Modelled from the spec: `AccountStore.get(id)` — looks up an account
record by uuid, absent keys yield `undefined` (here `none`). -/
def getAuthAccount (uuid : String) (st : ConfigState) : Option AuthAccount :=
  dbGet uuid st.authDB

/-- Modelled from the spec: `AccountStore.put(account)` — constructs the
account record from the given fields, persists it under its uuid, marks it
as selected when it is the store's first account, and returns the record. -/
def addMojangAuthAccount (uuid accessToken username displayName : String)
    (st : ConfigState) : AuthAccount × ConfigState :=
  let acc : AuthAccount := ⟨uuid, accessToken, username, displayName⟩
  let sel := if st.authDB = [] then some uuid else st.selectedUUID
  (acc, { st with authDB := dbPut uuid acc st.authDB, selectedUUID := sel })

/-- Modelled from the spec: `AccountStore.remove(id)` — deletes the record
stored under the uuid. -/
def removeAuthAccount (uuid : String) (st : ConfigState) : ConfigState :=
  { st with authDB := dbRemove uuid st.authDB }

/-- Modelled from the spec: persisting a refreshed access token onto the
stored account, replace-in-place under the same id. -/
def updateMojangAuthAccount (uuid token : String) (st : ConfigState) : ConfigState :=
  { st with authDB := dbUpdate uuid token st.authDB }

/-- Modelled from the spec: `AccountStore.getSelected()` — resolves the
selected-account reference; an unset reference or a dangling uuid yields
`undefined` (here `none`). -/
def getSelectedAccount (st : ConfigState) : Option AuthAccount :=
  match st.selectedUUID with
  | none => none
  | some u => dbGet u st.authDB

/-- Modelled from the spec: `AccountStore.getClientToken()`. -/
def getClientToken (st : ConfigState) : Option String :=
  st.clientToken

/-- Modelled from the spec: `AccountStore.setClientToken(token)`. -/
def setClientToken (token : String) (st : ConfigState) : ConfigState :=
  { st with clientToken := some token }

/-- Modelled from the spec: `AccountStore.commit()` — atomic commit of the
accumulated changes; only its occurrence matters here, counted. -/
def save (st : ConfigState) : ConfigState :=
  { st with saves := st.saves + 1 }

/-- The selected profile inside a provider session:
`{ id, name }`. -/
structure Profile where
  id : String
  name : String
  deriving DecidableEq, Repr

/-- A provider session as returned by `MojangRestAPI.authenticate` /
`refresh`: access token, client token, and the possibly absent
`selectedProfile`. -/
structure Session where
  accessToken : String
  clientToken : String
  selectedProfile : Option Profile
  deriving DecidableEq, Repr

/-- A helios-core REST response: either `responseStatus === SUCCESS`
carrying `data`, or a failure carrying `mojangErrorCode` and the raw
underlying `error` value (rendered as a string). -/
inductive MojangResponse (α : Type)
  | success (data : α)
  | failure (mojangErrorCode : JSErrorCode) (error : String)
  deriving DecidableEq, Repr

/-- A value with which one of the module's promises can reject: a
displayable error object built by `mojangErrorDisplayable`, the raw
`response.error` passed through, or a thrown JavaScript error. -/
inductive RejectValue
  | displayable (e : AuthError)
  | raw (e : String)
  | thrown (e : JSError)
  deriving DecidableEq, Repr

/-- The `catch` branch of `addMojangAccount` (lines 131-134): log the
error and reject with the UNKNOWN displayable; were that mapper call
itself to throw, the throw would escape as the rejection. -/
def addAccountCatch (lang : String → String) : RejectValue :=
  match mojangErrorDisplayable lang (JSErrorCode.known MojangErrorCode.UNKNOWN) with
  | Except.ok d => RejectValue.displayable d
  | Except.error e => RejectValue.thrown e

/-- `exports.addMojangAccount` (lines 109-135).  The provider's reply to
`MojangRestAPI.authenticate(username, password, clientToken)` is the
explicit input `resp`.  Returns the settled promise value together with
the store state after the call. -/
def addMojangAccount (lang : String → String) (username _password : String)
    (resp : MojangResponse Session) (st : ConfigState) :
    Except RejectValue AuthAccount × ConfigState :=
  match resp with
  | MojangResponse.success session =>
    match session.selectedProfile with
    | some profile =>
        let (ret, st1) := addMojangAuthAccount profile.id session.accessToken
          username profile.name st
        let st2 := if getClientToken st1 = none then setClientToken session.clientToken st1
          else st1
        (Except.ok ret, save st2)
    | none =>
        match mojangErrorDisplayable lang (JSErrorCode.known MojangErrorCode.ERROR_NOT_PAID) with
        | Except.ok d => (Except.error (RejectValue.displayable d), st)
        | Except.error _ => (Except.error (addAccountCatch lang), st)
  | MojangResponse.failure code _err =>
    match mojangErrorDisplayable lang code with
    | Except.ok d => (Except.error (RejectValue.displayable d), st)
    | Except.error _ => (Except.error (addAccountCatch lang), st)

/-- `exports.removeMojangAccount` (lines 143-159).  The provider's reply
to `MojangRestAPI.invalidate(accessToken, clientToken)` is the explicit
input `resp`.  When the uuid is absent, `authAcc.accessToken` reads a
property of `undefined`; the TypeError is caught and the promise rejects
with it raw, the provider never being called. -/
def removeMojangAccount (uuid : String) (resp : MojangResponse Unit)
    (st : ConfigState) : Except RejectValue Unit × ConfigState :=
  match getAuthAccount uuid st with
  | none =>
      (Except.error (RejectValue.thrown (JSError.typeError
        "Cannot read properties of undefined (reading accessToken)")), st)
  | some _authAcc =>
    match resp with
    | MojangResponse.success _ =>
        (Except.ok (), save (removeAuthAccount uuid st))
    | MojangResponse.failure _ err =>
        (Except.error (RejectValue.raw err), st)

instance {ε α : Type} [DecidableEq ε] [DecidableEq α] : DecidableEq (Except ε α)
  | Except.ok a, Except.ok b =>
      if h : a = b then isTrue (by rw [h])
      else isFalse (fun hh => h (by injection hh))
  | Except.ok _, Except.error _ => isFalse (fun hh => Except.noConfusion hh)
  | Except.error _, Except.ok _ => isFalse (fun hh => Except.noConfusion hh)
  | Except.error e, Except.error f =>
      if h : e = f then isTrue (by rw [h])
      else isFalse (fun hh => h (by injection hh))

/-- The outcome of one invocation of `validateSelectedMojangAccount`: the
settled promise value (`Option Bool` because the function can fall off its
end and resolve `undefined`), the store state afterwards, and how many
times `MojangRestAPI.refresh` was called. -/
structure ValidateRun where
  result : Except RejectValue (Option Bool)
  state : ConfigState
  refreshCalls : Nat
  deriving DecidableEq, Repr

/-- `validateSelectedMojangAccount` (lines 169-194).  The provider's
replies to `MojangRestAPI.validate` and (if reached)
`MojangRestAPI.refresh` are the explicit inputs `vresp` and `rresp`.
With no selected account, `current.accessToken` throws an uncaught
TypeError.  A non-SUCCESS validate response falls through the `if`
with no `else`: the function resolves `undefined`. -/
def validateSelectedMojangAccount (vresp : MojangResponse Bool)
    (rresp : MojangResponse Session) (st : ConfigState) : ValidateRun :=
  match getSelectedAccount st with
  | none =>
      ⟨Except.error (RejectValue.thrown (JSError.typeError
        "Cannot read properties of undefined (reading accessToken)")), st, 0⟩
  | some current =>
    match vresp with
    | MojangResponse.success isValid =>
        if isValid then ⟨Except.ok (some true), st, 0⟩
        else
          match rresp with
          | MojangResponse.success session =>
              ⟨Except.ok (some true),
               save (updateMojangAuthAccount current.uuid session.accessToken st), 1⟩
          | MojangResponse.failure _ _ =>
              ⟨Except.ok (some false), st, 1⟩
    | MojangResponse.failure _ _ =>
        ⟨Except.ok none, st, 0⟩

/-- `exports.validateSelected` (lines 201-203): awaits
`validateSelectedMojangAccount` and returns its result unchanged. -/
def validateSelected (vresp : MojangResponse Bool) (rresp : MojangResponse Session)
    (st : ConfigState) : ValidateRun :=
  validateSelectedMojangAccount vresp rresp st

/-! ### Concrete fixtures for witnesses and counterexamples -/

/-- A concrete stored account. -/
def acc0 : AuthAccount := ⟨"u1", "tok0", "mail", "User One"⟩

/-- A concrete store holding `acc0`, selected, with a client token set. -/
def st0 : ConfigState := ⟨[("u1", acc0)], some "ct0", some "u1", 0⟩

/-- A concrete store holding nothing. -/
def emptyState : ConfigState := ⟨[], none, none, 0⟩

/-- A concrete message catalog returning a non-empty string for every key. -/
def lang0 : String → String := fun _ => "m"

/-- A concrete successful session with a selectable profile. -/
def session0 : Session := ⟨"at1", "ct1", some ⟨"u1", "User One"⟩⟩

/-- A concrete successful session without a selectable profile. -/
def session1 : Session := ⟨"at2", "ct2", none⟩

/-! ### Association-list lemmas -/

theorem dbGet_dbRemove_self (u : String) (db : List (String × AuthAccount)) :
    dbGet u (dbRemove u db) = none := by
  induction db with
  | nil => rfl
  | cons kv rest ih =>
      by_cases hk : kv.1 = u
      · simpa [dbRemove, hk] using ih
      · simp [dbRemove, dbGet, hk, ih]

theorem dbGet_dbUpdate_self {u tok : String} {db : List (String × AuthAccount)}
    {a : AuthAccount} (h : dbGet u db = some a) :
    dbGet u (dbUpdate u tok db) = some { a with accessToken := tok } := by
  induction db with
  | nil => simp [dbGet] at h
  | cons kv rest ih =>
      by_cases hk : kv.1 = u
      · simp [dbGet, hk] at h
        simp [dbUpdate, dbGet, hk, h]
      · simp [dbGet, hk] at h
        simp [dbUpdate, dbGet, hk, ih h]

/-! ### Claim theorems -/

/-- C1: for every provider error code in the known enumeration,
`mojangErrorDisplayable` returns a displayable error object with
non-empty title and non-empty description (given a message catalog that
returns non-empty strings); for every value outside the enumeration it
fails fatally by throwing instead of returning a value. -/
theorem C1_mojangErrorDisplayable_total_on_known_fatal_on_unrecognized
    (lang : String → String) (hlang : ∀ k : String, lang k ≠ "") :
    (∀ c : MojangErrorCode, ∃ e : AuthError,
        mojangErrorDisplayable lang (JSErrorCode.known c) = Except.ok e ∧
        e.title ≠ "" ∧ e.desc ≠ "") ∧
    (∀ v : String, ∃ m : JSError,
        mojangErrorDisplayable lang (JSErrorCode.unrecognized v) = Except.error m) := by
  refine ⟨fun c => ?_, fun v => ⟨_, rfl⟩⟩
  cases c <;> exact ⟨_, rfl, hlang _, hlang _⟩

/-- Witness for C1 at a concrete catalog and code. -/
theorem C1_witness :
    ∃ e : AuthError,
      mojangErrorDisplayable lang0 (JSErrorCode.known MojangErrorCode.ERROR_NOT_FOUND) =
        Except.ok e ∧ e.title ≠ "" ∧ e.desc ≠ "" :=
  (C1_mojangErrorDisplayable_total_on_known_fatal_on_unrecognized lang0
    (fun _ => by simp [lang0])).1 MojangErrorCode.ERROR_NOT_FOUND

/-- C9: a successful authenticate response with no selectable profile is
rejected with the not-paid displayable (the `ERROR_NOT_PAID` mapping) and
the store is not mutated: no account added, no client token set, no
commit. -/
theorem C9_addMojangAccount_no_profile_rejects_not_paid
    (lang : String → String) (username password : String) (s : Session)
    (hprof : s.selectedProfile = none) (st : ConfigState) :
    addMojangAccount lang username password (MojangResponse.success s) st =
      (Except.error (RejectValue.displayable
        ⟨lang "auth.mojang.error.gameNotPurchasedTitle",
         lang "auth.mojang.error.gameNotPurchasedDesc"⟩), st) := by
  simp [addMojangAccount, hprof, mojangErrorDisplayable]

/-- Witness for C9 at a concrete profile-less session. -/
theorem C9_witness :
    addMojangAccount lang0 "mail" "pw" (MojangResponse.success session1) emptyState =
      (Except.error (RejectValue.displayable
        ⟨lang0 "auth.mojang.error.gameNotPurchasedTitle",
         lang0 "auth.mojang.error.gameNotPurchasedDesc"⟩), emptyState) :=
  C9_addMojangAccount_no_profile_rejects_not_paid lang0 "mail" "pw" session1 rfl emptyState

/-- C10: when the provider-error branch of `addMojangAccount` carries a
code the mapper does not recognise, the mapper throws, the `catch`
swallows the throw, and the promise rejects with the UNKNOWN displayable:
the fatal throw never escapes to the caller, and the store is untouched. -/
theorem C10_addMojangAccount_catches_unrecognized_code
    (lang : String → String) (username password v err : String) (st : ConfigState) :
    (∃ m : JSError,
        mojangErrorDisplayable lang (JSErrorCode.unrecognized v) = Except.error m) ∧
    addMojangAccount lang username password
        (MojangResponse.failure (JSErrorCode.unrecognized v) err) st =
      (Except.error (RejectValue.displayable
        ⟨lang "auth.mojang.error.unknownErrorTitle",
         lang "auth.mojang.error.unknownErrorDesc"⟩), st) :=
  ⟨⟨_, rfl⟩, by simp [addMojangAccount, mojangErrorDisplayable, addAccountCatch]⟩

/-- C3: a successful authenticate response with a selectable profile
yields an account whose uuid equals the profile id and whose access token
equals the session's access token; with the client token initially unset,
the first successful call sets it to the first session's client token and
a second successful call leaves it at that value (set exactly once). -/
theorem C3_addMojangAccount_success_fields_and_clientToken_once
    (lang : String → String) (u1 p1 u2 p2 : String) (s1 s2 : Session)
    (pr1 pr2 : Profile)
    (h1 : s1.selectedProfile = some pr1) (h2 : s2.selectedProfile = some pr2)
    (st : ConfigState) (hct : st.clientToken = none) :
    ∃ acc1 st1,
      addMojangAccount lang u1 p1 (MojangResponse.success s1) st = (Except.ok acc1, st1) ∧
      acc1.uuid = pr1.id ∧ acc1.accessToken = s1.accessToken ∧
      st1.clientToken = some s1.clientToken ∧
      ∃ acc2 st2,
        addMojangAccount lang u2 p2 (MojangResponse.success s2) st1 = (Except.ok acc2, st2) ∧
        st2.clientToken = some s1.clientToken := by
  refine ⟨⟨pr1.id, s1.accessToken, u1, pr1.name⟩,
    save (setClientToken s1.clientToken
      (addMojangAuthAccount pr1.id s1.accessToken u1 pr1.name st).2),
    ?_, rfl, rfl, ?_, ⟨pr2.id, s2.accessToken, u2, pr2.name⟩,
    save (addMojangAuthAccount pr2.id s2.accessToken u2 pr2.name
      (save (setClientToken s1.clientToken
        (addMojangAuthAccount pr1.id s1.accessToken u1 pr1.name st).2))).2,
    ?_, ?_⟩
  · simp [addMojangAccount, h1, addMojangAuthAccount, getClientToken, setClientToken, hct]
  · simp [save, setClientToken]
  · simp [addMojangAccount, h2, addMojangAuthAccount, getClientToken, setClientToken, save]
  · simp [save, setClientToken, addMojangAuthAccount]

/-- Witness for C3 at concrete sessions and an empty store. -/
theorem C3_witness :
    ∃ acc1 st1,
      addMojangAccount lang0 "mail" "pw" (MojangResponse.success session0) emptyState =
        (Except.ok acc1, st1) ∧
      acc1.uuid = "u1" ∧ acc1.accessToken = "at1" ∧
      st1.clientToken = some "ct1" ∧
      ∃ acc2 st2,
        addMojangAccount lang0 "mail" "pw" (MojangResponse.success session0) st1 =
          (Except.ok acc2, st2) ∧
        st2.clientToken = some "ct1" :=
  C3_addMojangAccount_success_fields_and_clientToken_once lang0 "mail" "pw" "mail" "pw"
    session0 session0 ⟨"u1", "User One"⟩ ⟨"u1", "User One"⟩ rfl rfl emptyState rfl

/-- C4 counterexample: removing an id absent from the store rejects with
the raw thrown TypeError (reading `accessToken` of `undefined`), not with
a mapped displayable error object. -/
theorem C4_counterexample :
    (removeMojangAccount "absent" (MojangResponse.success ()) emptyState).1 =
      Except.error (RejectValue.thrown (JSError.typeError
        "Cannot read properties of undefined (reading accessToken)")) ∧
    (¬ ∃ e : AuthError,
        (removeMojangAccount "absent" (MojangResponse.success ()) emptyState).1 =
          Except.error (RejectValue.displayable e)) ∧
    (removeMojangAccount "absent" (MojangResponse.success ()) emptyState).2 = emptyState := by
  refine ⟨rfl, ?_, rfl⟩
  rintro ⟨e, he⟩
  simp [removeMojangAccount, getAuthAccount, emptyState, dbGet] at he

/-- C4 amended: `removeMojangAccount` with an id absent from the store
rejects with the raw TypeError thrown when reading `accessToken` of
`undefined` (not a mapped displayable error), never calls the provider,
and leaves the store unchanged. -/
theorem C4_removeMojangAccount_absent_rejects_raw_typeError
    (uuid : String) (resp : MojangResponse Unit) (st : ConfigState)
    (habs : getAuthAccount uuid st = none) :
    removeMojangAccount uuid resp st =
      (Except.error (RejectValue.thrown (JSError.typeError
        "Cannot read properties of undefined (reading accessToken)")), st) := by
  simp [removeMojangAccount, habs]

/-- Witness for the amended C4 at a concrete absent id. -/
theorem C4_witness :
    removeMojangAccount "ghost"
        (MojangResponse.failure (JSErrorCode.known MojangErrorCode.ERROR_UNREACHABLE) "oops")
        st0 =
      (Except.error (RejectValue.thrown (JSError.typeError
        "Cannot read properties of undefined (reading accessToken)")), st0) :=
  C4_removeMojangAccount_absent_rejects_raw_typeError "ghost"
    (MojangResponse.failure (JSErrorCode.known MojangErrorCode.ERROR_UNREACHABLE) "oops")
    st0 rfl

/-- C5: for a stored account id, removal succeeds exactly when the
provider's invalidate call succeeds, after which the id no longer
resolves in the store; when the invalidate call fails, the promise
rejects and the store (hence the account record) is unchanged. -/
theorem C5_removeMojangAccount_deletion_gated_on_invalidate
    (uuid : String) (st : ConfigState) (acc : AuthAccount)
    (h : getAuthAccount uuid st = some acc) :
    (removeMojangAccount uuid (MojangResponse.success ()) st =
        (Except.ok (), save (removeAuthAccount uuid st)) ∧
      getAuthAccount uuid (save (removeAuthAccount uuid st)) = none) ∧
    (∀ code err, removeMojangAccount uuid (MojangResponse.failure code err) st =
        (Except.error (RejectValue.raw err), st) ∧
      getAuthAccount uuid st = some acc) := by
  refine ⟨⟨?_, ?_⟩, fun code err => ⟨?_, h⟩⟩
  · simp [removeMojangAccount, h]
  · simp [getAuthAccount, save, removeAuthAccount, dbGet_dbRemove_self]
  · simp [removeMojangAccount, h]

/-- Witness for C5 at the concrete store `st0`. -/
theorem C5_witness :
    (removeMojangAccount "u1" (MojangResponse.success ()) st0 =
        (Except.ok (), save (removeAuthAccount "u1" st0)) ∧
      getAuthAccount "u1" (save (removeAuthAccount "u1" st0)) = none) ∧
    (∀ code err, removeMojangAccount "u1" (MojangResponse.failure code err) st0 =
        (Except.error (RejectValue.raw err), st0) ∧
      getAuthAccount "u1" st0 = some acc0) :=
  C5_removeMojangAccount_deletion_gated_on_invalidate "u1" st0 acc0 rfl

/-- C2 counterexample: with a selected account and a non-SUCCESS validate
response, `validateSelected` settles as a normal resolution carrying
`undefined` (the `if` has no `else` and the function falls off its end),
not as a rejection carrying an `AuthError`; the store is unchanged. -/
theorem C2_counterexample :
    (validateSelected
        (MojangResponse.failure (JSErrorCode.known MojangErrorCode.ERROR_UNREACHABLE)
          "socket hang up")
        (MojangResponse.failure (JSErrorCode.known MojangErrorCode.UNKNOWN) "x")
        st0).result = Except.ok none ∧
    (validateSelected
        (MojangResponse.failure (JSErrorCode.known MojangErrorCode.ERROR_UNREACHABLE)
          "socket hang up")
        (MojangResponse.failure (JSErrorCode.known MojangErrorCode.UNKNOWN) "x")
        st0).state = st0 := by
  decide

/-- C2 amended: whenever the provider's validate call fails at the
transport/protocol level (response status not SUCCESS) and an account is
selected, `validateSelected` resolves with `undefined` — it does not
propagate the failure as an `AuthError` — and the stored account is not
modified (the store is unchanged, no refresh attempted). -/
theorem C2_validateSelected_provider_failure_resolves_undefined
    (st : ConfigState) (current : AuthAccount)
    (hsel : getSelectedAccount st = some current)
    (code : JSErrorCode) (err : String) (rresp : MojangResponse Session) :
    validateSelected (MojangResponse.failure code err) rresp st =
      ⟨Except.ok none, st, 0⟩ := by
  simp [validateSelected, validateSelectedMojangAccount, hsel]

/-- Witness for the amended C2 at the concrete store `st0`. -/
theorem C2_witness :
    validateSelected (MojangResponse.failure (JSErrorCode.unrecognized "undefined") "down")
        (MojangResponse.success session0) st0 =
      ⟨Except.ok none, st0, 0⟩ :=
  C2_validateSelected_provider_failure_resolves_undefined st0 acc0 rfl
    (JSErrorCode.unrecognized "undefined") "down" (MojangResponse.success session0)

/-- C6: when the provider reports the token invalid and the refresh call
succeeds, `validateSelected` returns true and the account stored under the
same id afterwards carries the refresh response's access token. -/
theorem C6_validateSelected_refresh_success_updates_token
    (st : ConfigState) (u : String) (current : AuthAccount)
    (hsel : st.selectedUUID = some u) (hdb : dbGet u st.authDB = some current)
    (huuid : current.uuid = u) (session : Session) :
    validateSelected (MojangResponse.success false) (MojangResponse.success session) st =
      ⟨Except.ok (some true),
       save (updateMojangAuthAccount current.uuid session.accessToken st), 1⟩ ∧
    getAuthAccount u
        (save (updateMojangAuthAccount current.uuid session.accessToken st)) =
      some { current with accessToken := session.accessToken } := by
  subst huuid
  have hcur : getSelectedAccount st = some current := by
    simp [getSelectedAccount, hsel, hdb]
  refine ⟨?_, ?_⟩
  · simp [validateSelected, validateSelectedMojangAccount, hcur]
  · simp [getAuthAccount, save, updateMojangAuthAccount, dbGet_dbUpdate_self hdb]

/-- Witness for C6 at the concrete store `st0`. -/
theorem C6_witness :
    validateSelected (MojangResponse.success false) (MojangResponse.success session0) st0 =
      ⟨Except.ok (some true),
       save (updateMojangAuthAccount acc0.uuid session0.accessToken st0), 1⟩ ∧
    getAuthAccount "u1" (save (updateMojangAuthAccount acc0.uuid session0.accessToken st0)) =
      some { acc0 with accessToken := session0.accessToken } :=
  C6_validateSelected_refresh_success_updates_token st0 "u1" acc0 rfl rfl rfl session0

/-- C7: when the provider reports the token invalid and the refresh call
fails, `validateSelected` resolves to false (no rejection) and the store
is unchanged: the account record is neither mutated nor deleted. -/
theorem C7_validateSelected_refresh_failure_returns_false
    (st : ConfigState) (current : AuthAccount)
    (hsel : getSelectedAccount st = some current)
    (code : JSErrorCode) (err : String) :
    validateSelected (MojangResponse.success false) (MojangResponse.failure code err) st =
      ⟨Except.ok (some false), st, 1⟩ := by
  simp [validateSelected, validateSelectedMojangAccount, hsel]

/-- Witness for C7 at the concrete store `st0`. -/
theorem C7_witness :
    validateSelected (MojangResponse.success false)
        (MojangResponse.failure (JSErrorCode.known MojangErrorCode.ERROR_INVALID_TOKEN) "e")
        st0 =
      ⟨Except.ok (some false), st0, 1⟩ :=
  C7_validateSelected_refresh_failure_returns_false st0 acc0 rfl
    (JSErrorCode.known MojangErrorCode.ERROR_INVALID_TOKEN) "e"

/-- C8: when the provider reports the token valid, `validateSelected`
returns true, leaves the store untouched, and makes no refresh call; every
invocation makes at most one refresh call; and repeating the invocation on
the resulting state yields the same outcome (idempotent and
side-effect-free on an already-valid token). -/
theorem C8_validateSelected_valid_idempotent_at_most_one_refresh
    (st : ConfigState) (current : AuthAccount)
    (hsel : getSelectedAccount st = some current) (rresp : MojangResponse Session) :
    validateSelected (MojangResponse.success true) rresp st =
      ⟨Except.ok (some true), st, 0⟩ ∧
    (∀ (v : MojangResponse Bool) (r : MojangResponse Session) (s : ConfigState),
        (validateSelected v r s).refreshCalls ≤ 1) ∧
    validateSelected (MojangResponse.success true) rresp
        (validateSelected (MojangResponse.success true) rresp st).state =
      ⟨Except.ok (some true), st, 0⟩ := by
  have h1 : validateSelected (MojangResponse.success true) rresp st =
      ⟨Except.ok (some true), st, 0⟩ := by
    simp [validateSelected, validateSelectedMojangAccount, hsel]
  refine ⟨h1, ?_, ?_⟩
  · intro v r s
    cases hs : getSelectedAccount s with
    | none => simp [validateSelected, validateSelectedMojangAccount, hs]
    | some c =>
        cases v with
        | success b =>
            cases b
            · cases r <;> simp [validateSelected, validateSelectedMojangAccount, hs]
            · simp [validateSelected, validateSelectedMojangAccount, hs]
        | failure code err => simp [validateSelected, validateSelectedMojangAccount, hs]
  · rw [h1]
    exact h1

/-- Witness for C8 at the concrete store `st0`. -/
theorem C8_witness :
    validateSelected (MojangResponse.success true) (MojangResponse.success session0) st0 =
      ⟨Except.ok (some true), st0, 0⟩ ∧
    (∀ (v : MojangResponse Bool) (r : MojangResponse Session) (s : ConfigState),
        (validateSelected v r s).refreshCalls ≤ 1) ∧
    validateSelected (MojangResponse.success true) (MojangResponse.success session0)
        (validateSelected (MojangResponse.success true) (MojangResponse.success session0)
          st0).state =
      ⟨Except.ok (some true), st0, 0⟩ :=
  C8_validateSelected_valid_idempotent_at_most_one_refresh st0 acc0 rfl
    (MojangResponse.success session0)

end AuthManager
